import Mathlib

/-!
Shallow embedding of the BioEntry terminal firmware (terminal_app.py,
face_detection.py, pantalla_completa.py) and proofs about its
specification claims.

Conventions of the embedding:
* wall-clock times and the face_detection_timeout are rationals (ℚ);
* frames are identified by a natural number (their pixel content is
  irrelevant to every claim);
* fallible library calls (HTTP requests, JSON decoding, JPEG encoding)
  are reified as `Option`/`Except` inputs to the embedded functions;
* the non-deterministic inputs of `save_offline_record` (the fresh
  uuid4 and the current timestamp) are passed as arguments.
-/

namespace BioEntry

/-! ### Camera loop state (terminal_app.py, BioEntryTerminal) -/

/-- The mutable state of `BioEntryTerminal` touched by `camera_loop`:
`self.last_detection_time`, `self.processing` and `self.frame_queue`
(frames identified by `Nat`). -/
structure CamState where
  last_detection_time : ℚ
  processing : Bool
  frame_queue : List Nat
  deriving Repr, DecidableEq

/-- `queue.Queue(maxsize=2)` from `BioEntryTerminal.__init__`. -/
def frame_queue_maxsize : Nat := 2

/-- `self.frame_queue.full()`. -/
def queue_full (q : List Nat) : Bool := frame_queue_maxsize ≤ q.length

/-- The enqueue step of `camera_loop`:
`if not self.frame_queue.full(): self.frame_queue.put(frame, block=False)`
(the surrounding `except queue.Full: pass` never fires in a
single-producer execution since the full check precedes the put). -/
def camera_enqueue (q : List Nat) (frame : Nat) : List Nat :=
  if queue_full q then q else q ++ [frame]

/-- The data `camera_loop` extracts from one captured frame:
`len(faces)`, `time.time()` and the frame itself. -/
structure FrameData where
  numFaces : Nat
  currentTime : ℚ
  frameId : Nat
  deriving Repr, DecidableEq

/-- The debounce gate of `camera_loop`:
`len(faces) > 0 and not self.processing` and
`current_time - self.last_detection_time > TERMINAL_CONFIG["face_detection_timeout"]`. -/
def should_dispatch (tmo : ℚ) (st : CamState) (d : FrameData) : Bool :=
  0 < d.numFaces && !st.processing &&
    decide (tmo < d.currentTime - st.last_detection_time)

/-- The synchronous part of `BioEntryTerminal.process_verification`:
`if self.processing: return` else set `self.processing = True` and start
the worker thread.  Returns (worker started?, processing flag after). -/
def process_verification (processing : Bool) : Bool × Bool :=
  if processing then (false, processing) else (true, true)

/-- One successful iteration of the `while True` body of `camera_loop`:
enqueue the drawn frame (dropping it when the queue is full), then run
the debounce gate; on dispatch, record `current_time` in
`self.last_detection_time` and call `process_verification`.
Returns (state after, a verification worker was dispatched). -/
def camera_iteration (tmo : ℚ) (st : CamState) (d : FrameData) :
    CamState × Bool :=
  let q := camera_enqueue st.frame_queue d.frameId
  if should_dispatch tmo st d then
    let pv := process_verification st.processing
    (⟨d.currentTime, pv.2, q⟩, pv.1)
  else
    (⟨st.last_detection_time, st.processing, q⟩, false)

/-- How one iteration of a loop ends. -/
inductive LoopOutcome
  | continued
  | propagated
  deriving Repr, DecidableEq

/-- One iteration of `camera_loop` including its
`except Exception as e: print(...); time.sleep(1)` handler: a `.error`
input stands for any exception raised while processing the frame
(capture, colour conversion, detection, drawing); it is printed and the
loop continues with the state unchanged.  Returns
(state after, dispatched?, how the iteration ended). -/
def camera_loop_step (tmo : ℚ) (st : CamState) (inp : Except String FrameData) :
    CamState × Bool × LoopOutcome :=
  match inp with
  | .error _ => (st, false, .continued)
  | .ok d =>
    let r := camera_iteration tmo st d
    (r.1, r.2, .continued)

/-! ### Verification worker (terminal_app.py, process_verification.verify) -/

/-- The decoded JSON payload of `/verify-terminal/auto` as the worker
reads it: `result.get('verified', False)` and
`result.get('mensaje', 'Verificación exitosa')`. -/
structure ApiJson where
  verified : Option Bool
  mensaje : Option String
  detail : Option String
  deriving Repr, DecidableEq

/-- The final message `verify` leaves on screen. -/
inductive VerifyDisplay
  | success (msg : String)
  | failure (msg : String)
  deriving Repr, DecidableEq

/-- How the worker thread ends. -/
inductive WorkerEnd
  | normal
  | propagated
  deriving Repr, DecidableEq

/-- The inputs of one run of the `verify` worker:
the result of `cv2.imencode` (`none` when `success` is false), the
`self.is_online` flag, and the outcome of
`self.api_client.verify_face_auto` (only consulted when online). -/
structure WorkerInput where
  encoded : Option (List Nat)
  isOnline : Bool
  apiResult : Except String ApiJson
  deriving Repr

/-- What one run of the `verify` worker produces. -/
structure WorkerResult where
  display : VerifyDisplay
  processingAfter : Bool
  ended : WorkerEnd
  deriving Repr, DecidableEq

/-- The `verify` worker of `process_verification`: encode the frame
(raising on failure), then either call the API (online) or show the
offline-unavailable error; any exception is caught, shown as
`"Error: ..."` and printed; the `finally` block resets
`self.processing = False` in every case, and the thread ends normally. -/
def verify_worker (inp : WorkerInput) : WorkerResult :=
  let display :=
    match inp.encoded with
    | none => VerifyDisplay.failure "Error: Error al codificar imagen"
    | some _ =>
      if inp.isOnline then
        match inp.apiResult with
        | .error e => VerifyDisplay.failure ("Error: " ++ e)
        | .ok result =>
          if result.verified.getD false then
            VerifyDisplay.success (result.mensaje.getD "Verificación exitosa")
          else
            VerifyDisplay.failure "Verificación fallida"
      else
        VerifyDisplay.failure "Modo offline no disponible aún"
  { display := display, processingAfter := false, ended := .normal }

/-! ### API client (terminal_app.py, APIClient) -/

/-- An HTTP response as the embedding sees it: the status code and the
result of `response.json()` (`none` when the body is not decodable JSON,
in which case `response.json()` raises). -/
structure HTTPResponse where
  status : Nat
  jsonBody : Option ApiJson
  deriving Repr, DecidableEq

/-- `APIClient.check_connection`: `GET {base_url}/version` with a 3 s
timeout; returns `status_code == 200`, and `False` on any exception
(`none` models a failed request). -/
def check_connection (resp : Option HTTPResponse) : Bool :=
  match resp with
  | some r => r.status == 200
  | none => false

/-- One round of the connectivity poll in
`BioEntryTerminal.check_online_status.check`: read
`check_connection()` and assign it to `self.is_online` when it differs
from the current value.  Returns the value of `is_online` after. -/
def check_online_status_step (is_online : Bool) (resp : Option HTTPResponse) :
    Bool :=
  let online := check_connection resp
  if online != is_online then online else is_online

/-- A form-data value of the multipart request. -/
inductive FormValue
  | str (s : String)
  | num (q : ℚ)
  deriving Repr, DecidableEq

/-- The HTTP request `APIClient.verify_face_auto` builds:
url, multipart file parts (field name, filename, bytes, content type),
form data and headers. -/
structure VerifyRequest where
  url : String
  files : List (String × String × List Nat × String)
  data : List (String × FormValue)
  headers : List (String × String)
  deriving Repr, DecidableEq

/-- The request-construction part of `APIClient.verify_face_auto`:
`POST {base_url}/verify-terminal/auto` with the image as multipart file
field `image`, form field `terminal_id`, `lat`/`lng` added only when
both are not `None`, and header `X-API-Key`. -/
def verify_face_auto_request (base_url terminal_id api_key : String)
    (image_bytes : List Nat) (lat lng : Option ℚ) : VerifyRequest :=
  { url := base_url ++ "/verify-terminal/auto"
  , files := [("image", ("capture.jpg", image_bytes, "image/jpeg"))]
  , data := [("terminal_id", FormValue.str terminal_id)] ++
      (match lat, lng with
       | some la, some ln => [("lat", FormValue.num la), ("lng", FormValue.num ln)]
       | _, _ => [])
  , headers := [("X-API-Key", api_key)] }

/-- The response handling of `APIClient.verify_face_auto`:
`none` models a `requests.RequestException` (re-raised as
"Error de conexión"); on status 200 the decoded JSON is returned
(`response.json()` raising on an undecodable body, re-raised by the
final handler); on any other status an exception is raised built from
the response's `detail` field, defaulted to "Error desconocido". -/
def verify_face_auto_handle (resp : Option HTTPResponse) :
    Except String ApiJson :=
  match resp with
  | none => .error "Error de conexión"
  | some r =>
    if r.status = 200 then
      match r.jsonBody with
      | some j => .ok j
      | none => .error "Error en verificación: respuesta no es JSON"
    else
      .error ("Error en verificación: Error API: " ++
        (match r.jsonBody with
         | some j => j.detail.getD "Error desconocido"
         | none => "Error desconocido"))

/-! ### Offline database (terminal_app.py, OfflineDatabase) -/

/-- One row of the `registros_offline` table, as created by
`init_database`: `id TEXT PRIMARY KEY`, `cedula TEXT NOT NULL`,
`timestamp TEXT NOT NULL`, `tipo_registro TEXT NOT NULL`,
`verificado INTEGER DEFAULT 1`, `synced INTEGER DEFAULT 0`
(the db-generated `created_at` column is omitted). -/
structure OfflineRecord where
  id : String
  cedula : String
  timestamp : String
  tipo_registro : String
  verificado : Nat
  synced : Nat
  deriving Repr, DecidableEq

/-- `INSERT INTO registros_offline (id, cedula, timestamp, tipo_registro)
VALUES (?, ?, ?, ?)`: SQLite rejects the row when another row already
has the same primary key `id`; otherwise the row is appended with the
column defaults `verificado = 1`, `synced = 0`. -/
def insertRegistroOffline (table : List OfflineRecord) (r : OfflineRecord) :
    Except String (List OfflineRecord) :=
  if table.any (fun r0 => r0.id == r.id) then
    .error "UNIQUE constraint failed: registros_offline.id"
  else
    .ok (table ++ [r])

/-- `OfflineDatabase.save_offline_record`: a fresh `record_id`
(`str(uuid.uuid4())`, passed as an argument here) and the current
timestamp (`datetime.utcnow().isoformat()`, also an argument) are
inserted together with the caller's `cedula` and `tipo_registro`. -/
def save_offline_record (table : List OfflineRecord)
    (record_id timestamp cedula tipo_registro : String) :
    Except String (List OfflineRecord) :=
  insertRegistroOffline table
    { id := record_id, cedula := cedula, timestamp := timestamp,
      tipo_registro := tipo_registro, verificado := 1, synced := 0 }

/-! ### Cascade loading (terminal_app.py FaceDetector, face_detection.py) -/

/-- `FaceDetector._load_face_cascade`: walk the candidate paths in
order; a path is taken when `os.path.exists(path)` holds (`ex`) and the
classifier loaded from it is non-empty (`ne`); when no path qualifies,
`raise Exception("No se pudo cargar el clasificador de caras")`.
Returns the path the classifier was loaded from. -/
def load_face_cascade (ex ne : String → Bool) :
    List String → Except String String
  | [] => .error "No se pudo cargar el clasificador de caras"
  | p :: rest =>
    if ex p && ne p then .ok p else load_face_cascade ex ne rest

/-- The loading loop of the standalone script `face_detection.py`:
`face_cascade` starts as `None`; for each path that exists the
classifier is loaded into `face_cascade` (recording whether it is
non-empty) and the loop breaks on a non-empty one.  The accumulator is
`none` (still `None`) or `some (path, nonempty?)`. -/
def script_load_loop (ex ne : String → Bool) :
    List String → Option (String × Bool) → Option (String × Bool)
  | [], acc => acc
  | p :: rest, acc =>
    if ex p then
      if ne p then some (p, true)
      else script_load_loop ex ne rest (some (p, false))
    else script_load_loop ex ne rest acc

/-- The guard of `face_detection.py` after the loop:
`if face_cascade is None or face_cascade.empty(): ... exit(1)` —
`true` means the script exits with an error. -/
def script_exits_with_error (ex ne : String → Bool) (paths : List String) :
    Bool :=
  match script_load_loop ex ne paths none with
  | none => true
  | some (_, nonempty) => !nonempty

/-! ### Face-rectangle scaling (pantalla_completa.py) -/

/-- `scale_x = 800 / 400` (Python true division). -/
def scale_x : ℚ := 800 / 400

/-- `scale_y = 400 / 300` (Python true division). -/
def scale_y : ℚ := 400 / 300

/-- The per-face coordinate scaling of `pantalla_completa.py`:
`int(x * scale_x)`, `int(y * scale_y)`, `int(w * scale_x)`,
`int(h * scale_y)`; for the non-negative detector outputs Python's
`int()` truncation agrees with the floor. -/
def scaleRect (x y w h : ℤ) : ℤ × ℤ × ℤ × ℤ :=
  (⌊(x : ℚ) * scale_x⌋, ⌊(y : ℚ) * scale_y⌋,
   ⌊(w : ℚ) * scale_x⌋, ⌊(h : ℚ) * scale_y⌋)

/-! ### Helper functions and lemmas -/

/-- Whether an `Except` computation returned normally. -/
def exceptOk {ε α : Type} : Except ε α → Bool
  | .ok _ => true
  | .error _ => false

/-- Whether the loaded-cascade accumulator of `face_detection.py` holds
a non-empty classifier. -/
def accNonempty : Option (String × Bool) → Bool
  | some (_, b) => b
  | none => false

/-! ### Theorems -/

/-- **C1**: in `camera_loop`, a verification is dispatched exactly when
the frame has at least one detected face, no verification is in flight
(`processing` is false), and strictly more than `face_detection_timeout`
seconds have elapsed since the last dispatch; on dispatch
`last_detection_time` is set to the current time and `processing`
becomes true, and otherwise both are unchanged — so no dispatch occurs
while a verification is in flight or within the cooldown window. -/
theorem camera_dispatch_iff (tmo : ℚ) (st : CamState) (d : FrameData) :
    ((camera_iteration tmo st d).2 = true ↔
      0 < d.numFaces ∧ st.processing = false ∧
        tmo < d.currentTime - st.last_detection_time) ∧
    ((camera_iteration tmo st d).2 = true →
      (camera_iteration tmo st d).1.last_detection_time = d.currentTime ∧
      (camera_iteration tmo st d).1.processing = true) ∧
    ((camera_iteration tmo st d).2 = false →
      (camera_iteration tmo st d).1.last_detection_time = st.last_detection_time ∧
      (camera_iteration tmo st d).1.processing = st.processing) := by
  simp only [camera_iteration, should_dispatch, process_verification]
  by_cases h1 : 0 < d.numFaces <;>
    by_cases h2 : st.processing = true <;>
    by_cases h3 : tmo < d.currentTime - st.last_detection_time <;>
    simp [h1, h2, h3]

/-- Witness for `camera_dispatch_iff` at a concrete state and frame. -/
theorem camera_dispatch_iff_witness :
    (camera_iteration 3 ⟨0, false, []⟩ ⟨1, 10, 0⟩).2 = true ∧
    (camera_iteration 3 ⟨0, false, []⟩ ⟨1, 10, 0⟩).1.last_detection_time = 10 := by
  have h := camera_dispatch_iff 3 ⟨0, false, []⟩ ⟨1, 10, 0⟩
  have h2 : (camera_iteration 3 ⟨0, false, []⟩ ⟨1, 10, 0⟩).2 = true :=
    h.1.mpr ⟨by norm_num, rfl, by norm_num⟩
  exact ⟨h2, (h.2.1 h2).1⟩

/-- **C2**: the frame queue has capacity exactly 2 and the camera loop's
enqueue step never blocks: on a full queue the new frame is discarded
and the queue is unchanged, otherwise the frame is appended. -/
theorem frame_queue_capacity_and_drop :
    frame_queue_maxsize = 2 ∧
    ∀ (q : List Nat) (f : Nat),
      (queue_full q = true → camera_enqueue q f = q) ∧
      (queue_full q = false → camera_enqueue q f = q ++ [f]) ∧
      (camera_enqueue q f).length ≤ max q.length 2 := by
  refine ⟨rfl, fun q f => ⟨?_, ?_, ?_⟩⟩
  · intro h; simp [camera_enqueue, h]
  · intro h; simp [camera_enqueue, h]
  · by_cases h : queue_full q = true
    · simp [camera_enqueue, h]
    · have hlen : q.length < 2 := by
        simpa [queue_full, frame_queue_maxsize] using h
      simp [camera_enqueue, h]
      omega

/-- Witness for `frame_queue_capacity_and_drop`: a full queue drops the
frame, an empty queue accepts it. -/
theorem frame_queue_capacity_and_drop_witness :
    camera_enqueue [5, 6] 7 = [5, 6] ∧ camera_enqueue [] 7 = [7] := by
  have h := frame_queue_capacity_and_drop
  exact ⟨(h.2 [5, 6] 7).1 (by decide), (h.2 [] 7).2.1 (by decide)⟩

/-- **C3**: `check_connection` returns true exactly when the GET request
succeeded with status 200 and false otherwise (a failed request is
`none`), and each round of the connectivity poll leaves `is_online`
equal to `check_connection`'s result — so connectivity failures degrade
`is_online` to false. -/
theorem check_connection_spec :
    (∀ resp, check_connection resp = true ↔
        ∃ r : HTTPResponse, resp = some r ∧ r.status = 200) ∧
    check_connection none = false ∧
    (∀ (b : Bool) (resp : Option HTTPResponse),
        check_online_status_step b resp = check_connection resp) := by
  refine ⟨fun resp => ?_, rfl, fun b resp => ?_⟩
  · cases resp with
    | none => simp [check_connection]
    | some r => simp [check_connection]
  · cases hb : check_connection resp <;> cases b <;>
      simp [check_online_status_step, hb]

/-- Witness for `check_connection_spec`: a 500 response yields false and
the poll step turns `is_online` from true to false. -/
theorem check_connection_spec_witness :
    check_connection (some ⟨500, none⟩) = false ∧
    check_online_status_step true (some ⟨500, none⟩) = false := by
  have h := check_connection_spec
  have h1 : check_connection (some (⟨500, none⟩ : HTTPResponse)) = false := by
    by_contra hc
    have := (h.1 (some ⟨500, none⟩)).mp (by revert hc; cases check_connection (some (⟨500, none⟩ : HTTPResponse)) <;> simp)
    rcases this with ⟨r, hr, hst⟩
    cases hr
    exact absurd hst (by decide)
  exact ⟨h1, by rw [h.2.2 true (some ⟨500, none⟩), h1]⟩

/-- **C9**: `process_verification` sets the processing flag to true when
it dispatches a worker (and dispatches only from the idle state), and
the `verify` worker's `finally` block resets the flag to false on every
input, verification success, failure or exception alike. -/
theorem processing_flag_lifecycle :
    process_verification false = (true, true) ∧
    process_verification true = (false, true) ∧
    ∀ w : WorkerInput, (verify_worker w).processingAfter = false :=
  ⟨rfl, rfl, fun _ => rfl⟩

/-- **C7**: every exception in one frame's processing inside
`camera_loop` is caught and the loop continues (with the state
unchanged), and the `verify` worker always ends normally, whatever the
encode result, online flag or API outcome. -/
theorem broad_catch_continue (tmo : ℚ) (st : CamState)
    (inp : Except String FrameData) (w : WorkerInput) :
    (camera_loop_step tmo st inp).2.2 = .continued ∧
    (verify_worker w).ended = .normal ∧
    (∀ e, inp = .error e → camera_loop_step tmo st inp = (st, false, .continued)) := by
  refine ⟨?_, rfl, ?_⟩
  · cases inp <;> rfl
  · intro e he; subst he; rfl

/-- Witness for `broad_catch_continue`: a raised exception leaves the
state unchanged and the loop continues; a worker whose encode fails
still ends normally. -/
theorem broad_catch_continue_witness :
    camera_loop_step 3 ⟨0, false, []⟩ (.error "boom") =
      (⟨0, false, []⟩, false, .continued) ∧
    (verify_worker ⟨none, true, .error "x"⟩).ended = .normal := by
  have h := broad_catch_continue 3 ⟨0, false, []⟩ (.error "boom")
    ⟨none, true, .error "x"⟩
  exact ⟨h.2.2 "boom" rfl, h.2.1⟩

/-- **C4**: every request built by `verify_face_auto` is a POST to
`{base_url}/verify-terminal/auto` with the image as the multipart
`image` file field, the `terminal_id` form field, and the `X-API-Key`
header set to the configured key; `lat` and `lng` appear in the form
data if and only if both arguments are not `None`. -/
theorem verify_face_auto_request_spec (base_url terminal_id api_key : String)
    (image_bytes : List Nat) (lat lng : Option ℚ) :
    (verify_face_auto_request base_url terminal_id api_key image_bytes lat lng).url
        = base_url ++ "/verify-terminal/auto" ∧
    (verify_face_auto_request base_url terminal_id api_key image_bytes lat lng).files
        = [("image", ("capture.jpg", image_bytes, "image/jpeg"))] ∧
    ("terminal_id", FormValue.str terminal_id) ∈
        (verify_face_auto_request base_url terminal_id api_key image_bytes lat lng).data ∧
    (verify_face_auto_request base_url terminal_id api_key image_bytes lat lng).headers
        = [("X-API-Key", api_key)] ∧
    ((∃ v, ("lat", v) ∈
        (verify_face_auto_request base_url terminal_id api_key image_bytes lat lng).data)
      ↔ lat.isSome ∧ lng.isSome) ∧
    ((∃ v, ("lng", v) ∈
        (verify_face_auto_request base_url terminal_id api_key image_bytes lat lng).data)
      ↔ lat.isSome ∧ lng.isSome) := by
  cases lat <;> cases lng <;>
    simp [verify_face_auto_request]

/-- Witness for `verify_face_auto_request_spec` at concrete arguments
with both coordinates present. -/
theorem verify_face_auto_request_spec_witness :
    (verify_face_auto_request "http://localhost:8000" "TERMINAL_001"
        "terminal_key_001" [1, 2] (some 4) (some 5)).url
      = "http://localhost:8000" ++ "/verify-terminal/auto" ∧
    ∃ v, ("lat", v) ∈ (verify_face_auto_request "http://localhost:8000"
        "TERMINAL_001" "terminal_key_001" [1, 2] (some 4) (some 5)).data := by
  have h := verify_face_auto_request_spec "http://localhost:8000" "TERMINAL_001"
    "terminal_key_001" [1, 2] (some 4) (some 5)
  exact ⟨h.1, h.2.2.2.2.1.mpr ⟨rfl, rfl⟩⟩

/-- **C5**: `verify_face_auto` returns the decoded JSON payload exactly
when the response status is 200 (for any response whose body decodes),
and raises for every non-200 status and for a failed request. -/
theorem verify_face_auto_handle_spec :
    exceptOk (verify_face_auto_handle none) = false ∧
    (∀ r : HTTPResponse, r.status ≠ 200 →
        ∃ e, verify_face_auto_handle (some r) = .error e) ∧
    (∀ (r : HTTPResponse) (j : ApiJson), r.jsonBody = some j →
        (verify_face_auto_handle (some r) = .ok j ↔ r.status = 200)) := by
  refine ⟨rfl, fun r hr => ?_, fun r j hj => ?_⟩
  · simp only [verify_face_auto_handle, if_neg hr]
    exact ⟨_, rfl⟩
  · constructor
    · intro hok
      by_contra hst
      simp only [verify_face_auto_handle, if_neg hst] at hok
      exact Except.noConfusion hok
    · intro hst
      simp [verify_face_auto_handle, hst, hj]

/-- Witness for `verify_face_auto_handle_spec`: a 200 response returns
its payload, a 404 response raises. -/
theorem verify_face_auto_handle_spec_witness :
    verify_face_auto_handle (some ⟨200, some ⟨some true, some "ok", none⟩⟩)
      = .ok ⟨some true, some "ok", none⟩ ∧
    ∃ e, verify_face_auto_handle (some ⟨404, some ⟨none, none, some "no match"⟩⟩)
      = .error e := by
  have h := verify_face_auto_handle_spec
  exact ⟨(h.2.2 ⟨200, some ⟨some true, some "ok", none⟩⟩
            ⟨some true, some "ok", none⟩ rfl).mpr rfl,
         h.2.1 ⟨404, some ⟨none, none, some "no match"⟩⟩ (by decide)⟩

/-- **C6, counterexample**: the primary key of `registros_offline` is
the generated uuid `id`, not `cedula`: two consecutive
`save_offline_record` calls with the same cedula `"123"` but distinct
fresh uuids both succeed, leaving two coexisting rows with that
cedula. -/
theorem offline_same_cedula_coexist :
    save_offline_record [] "id-1" "ts1" "123" "entrada" =
      .ok [⟨"id-1", "123", "ts1", "entrada", 1, 0⟩] ∧
    save_offline_record [⟨"id-1", "123", "ts1", "entrada", 1, 0⟩]
        "id-2" "ts2" "123" "salida" =
      .ok [⟨"id-1", "123", "ts1", "entrada", 1, 0⟩,
           ⟨"id-2", "123", "ts2", "salida", 1, 0⟩] ∧
    (([⟨"id-1", "123", "ts1", "entrada", 1, 0⟩,
       ⟨"id-2", "123", "ts2", "salida", 1, 0⟩] : List OfflineRecord).filter
        (fun r => r.cedula == "123")).length = 2 := by
  refine ⟨?_, ?_, ?_⟩ <;> rfl

/-- **C6, amended**: an offline record consists of a generated uuid
`id`, the cedula, timestamp, record type and the defaulted
`verificado`/`synced` flags; the integrity invariant is primary-key
uniqueness on `id` (not on cedula): a successful insert appends exactly
that row and preserves distinctness of ids, and inserting an existing
`id` fails. -/
theorem registros_offline_pk_on_id
    (t : List OfflineRecord) (record_id timestamp cedula tipo_registro : String) :
    (∀ t2, save_offline_record t record_id timestamp cedula tipo_registro = .ok t2 →
      t2 = t ++ [⟨record_id, cedula, timestamp, tipo_registro, 1, 0⟩] ∧
      ((t.map OfflineRecord.id).Nodup → (t2.map OfflineRecord.id).Nodup)) ∧
    ((∃ r0 ∈ t, r0.id = record_id) →
      ∃ e, save_offline_record t record_id timestamp cedula tipo_registro
        = .error e) := by
  constructor
  · intro t2 hok
    simp only [save_offline_record, insertRegistroOffline] at hok
    by_cases hdup : t.any (fun r0 => r0.id == record_id) = true
    · rw [if_pos hdup] at hok
      exact absurd hok (by simp)
    · rw [if_neg hdup] at hok
      have ht2 : t2 = t ++ [⟨record_id, cedula, timestamp, tipo_registro, 1, 0⟩] := by
        cases hok
        rfl
      refine ⟨ht2, fun hnd => ?_⟩
      have hnotmem : record_id ∉ t.map OfflineRecord.id := by
        intro hmem
        rcases List.mem_map.mp hmem with ⟨r0, hr0, hid⟩
        exact hdup (List.any_eq_true.mpr ⟨r0, hr0, by simp [hid]⟩)
      subst ht2
      rw [List.map_append]
      exact List.Nodup.append hnd (List.nodup_singleton _)
        (by simpa [List.disjoint_singleton] using hnotmem)
  · intro ⟨r0, hr0, hid⟩
    have hdup : t.any (fun r1 => r1.id == record_id) = true :=
      List.any_eq_true.mpr ⟨r0, hr0, by simp [hid]⟩
    simp only [save_offline_record, insertRegistroOffline, if_pos hdup]
    exact ⟨_, rfl⟩

/-- Witness for `registros_offline_pk_on_id`: inserting into a table
that already holds the id fails; inserting a fresh id into the empty
table appends the row. -/
theorem registros_offline_pk_on_id_witness :
    (∃ e, save_offline_record [⟨"id-1", "123", "ts1", "entrada", 1, 0⟩]
        "id-1" "ts2" "456" "salida" = .error e) ∧
    List.Nodup ((([⟨"id-1", "123", "ts1", "entrada", 1, 0⟩] : List OfflineRecord) ++
        ([⟨"id-2", "456", "ts2", "salida", 1, 0⟩] : List OfflineRecord)).map
          OfflineRecord.id) := by
  constructor
  · refine (registros_offline_pk_on_id
      ([⟨"id-1", "123", "ts1", "entrada", 1, 0⟩] : List OfflineRecord)
      "id-1" "ts2" "456" "salida").2 ?_
    exact ⟨⟨"id-1", "123", "ts1", "entrada", 1, 0⟩, by simp, rfl⟩
  · exact ((registros_offline_pk_on_id
      ([⟨"id-1", "123", "ts1", "entrada", 1, 0⟩] : List OfflineRecord)
      "id-2" "ts2" "456" "salida").1 _ rfl).2 (by simp)

/-- Paths skipped by `_load_face_cascade` (missing, or loading an empty
classifier) do not affect the result. -/
theorem load_face_cascade_skip (ex ne : String → Bool) :
    ∀ pre rest : List String, (∀ q ∈ pre, ¬(ex q = true ∧ ne q = true)) →
      load_face_cascade ex ne (pre ++ rest) = load_face_cascade ex ne rest := by
  intro pre
  induction pre with
  | nil => intro rest _; rfl
  | cons p pre ih =>
    intro rest hbad
    have hp : (ex p && ne p) = false := by
      have := hbad p (List.mem_cons_self p pre)
      cases hex : ex p <;> cases hne : ne p <;> simp_all
    simp only [List.cons_append, load_face_cascade, hp, Bool.false_eq_true,
      if_false]
    exact ih rest (fun q hq => hbad q (List.mem_cons_of_mem p hq))

/-- `_load_face_cascade` succeeds exactly when some candidate path both
exists and loads a non-empty classifier. -/
theorem load_face_cascade_ok_iff_any (ex ne : String → Bool) :
    ∀ ps : List String,
      exceptOk (load_face_cascade ex ne ps) = ps.any (fun p => ex p && ne p) := by
  intro ps
  induction ps with
  | nil => rfl
  | cons p rest ih =>
    by_cases hp : (ex p && ne p) = true
    · simp [load_face_cascade, hp, exceptOk]
    · simp only [Bool.not_eq_true] at hp
      simp [load_face_cascade, hp, ih]

/-- The loading loop of `face_detection.py` ends with a non-empty
classifier exactly when some path exists and loads non-empty, for any
accumulator not already holding a non-empty classifier. -/
theorem script_load_loop_nonempty (ex ne : String → Bool) :
    ∀ (ps : List String) (acc : Option (String × Bool)),
      accNonempty acc = false →
      accNonempty (script_load_loop ex ne ps acc)
        = ps.any (fun p => ex p && ne p) := by
  intro ps
  induction ps with
  | nil => intro acc hacc; simpa [script_load_loop] using hacc
  | cons p rest ih =>
    intro acc hacc
    by_cases hex : ex p = true
    · by_cases hne : ne p = true
      · simp [script_load_loop, hex, hne, accNonempty]
      · simp only [Bool.not_eq_true] at hne
        simp [script_load_loop, hex, hne, ih (some (p, false)) rfl]
    · simp only [Bool.not_eq_true] at hex
      simp [script_load_loop, hex, ih acc hacc]

/-- An `Except` computation fails exactly when it is an `.error`. -/
theorem exceptOk_eq_false_iff {ε α : Type} (x : Except ε α) :
    exceptOk x = false ↔ ∃ e, x = .error e := by
  cases x <;> simp [exceptOk]

/-- **C8**: `_load_face_cascade` tries the candidate paths in order and
returns the classifier loaded from the first path that exists and loads
a non-empty cascade, skipping paths that do not exist or load empty;
when no candidate qualifies it raises, and on the same filesystem the
standalone script `face_detection.py` exits with an error exactly when
loading would raise. -/
theorem load_face_cascade_spec (ex ne : String → Bool) (ps : List String) :
    (∀ pre p post, ps = pre ++ p :: post →
        (∀ q ∈ pre, ¬(ex q = true ∧ ne q = true)) →
        ex p = true → ne p = true →
        load_face_cascade ex ne ps = .ok p) ∧
    ((∀ p ∈ ps, ¬(ex p = true ∧ ne p = true)) →
        load_face_cascade ex ne ps
          = .error "No se pudo cargar el clasificador de caras") ∧
    (script_exits_with_error ex ne ps = true ↔
        ∃ e, load_face_cascade ex ne ps = .error e) := by
  refine ⟨?_, ?_, ?_⟩
  · intro pre p post hps hbad hex hne
    subst hps
    rw [load_face_cascade_skip ex ne pre (p :: post) hbad]
    simp [load_face_cascade, hex, hne]
  · intro hbad
    induction ps with
    | nil => rfl
    | cons p rest ih =>
      have hp : (ex p && ne p) = false := by
        have := hbad p (List.mem_cons_self p rest)
        cases hex : ex p <;> cases hne : ne p <;> simp_all
      simp only [load_face_cascade, hp, Bool.false_eq_true, if_false]
      exact ih (fun q hq => hbad q (List.mem_cons_of_mem p hq))
  · have hscript : script_exits_with_error ex ne ps
        = !(ps.any (fun p => ex p && ne p)) := by
      have hloop := script_load_loop_nonempty ex ne ps none rfl
      unfold script_exits_with_error
      cases hres : script_load_loop ex ne ps none with
      | none => rw [hres] at hloop; simp_all [accNonempty]
      | some pb => rw [hres] at hloop; simp_all [accNonempty]
    rw [hscript, ← exceptOk_eq_false_iff, load_face_cascade_ok_iff_any]
    cases ps.any (fun p => ex p && ne p) <;> simp

/-- Witness for `load_face_cascade_spec`: with two skipped paths (one
missing, one loading empty) the third is returned; with every path bad
the loader raises. -/
theorem load_face_cascade_spec_witness :
    load_face_cascade (fun p => p == "b" || p == "c") (fun p => p == "c")
      ["a", "b", "c"] = .ok "c" ∧
    load_face_cascade (fun p => p == "b") (fun _ => false) ["a", "b"]
      = .error "No se pudo cargar el clasificador de caras" := by
  constructor
  · exact (load_face_cascade_spec (fun p => p == "b" || p == "c")
      (fun p => p == "c") ["a", "b", "c"]).1 ["a", "b"] "c" []
      rfl (by decide) (by decide) (by decide)
  · exact (load_face_cascade_spec (fun p => p == "b") (fun _ => false)
      ["a", "b"]).2.1 (by decide)

/-- **C10**: the face-rectangle scaling of `pantalla_completa.py` maps
(x, y, w, h) to (⌊x·800/400⌋, ⌊y·400/300⌋, ⌊w·800/400⌋, ⌊h·400/300⌋)
= (2x, ⌊4y/3⌋, 2w, ⌊4h/3⌋), and every rectangle with non-negative
coordinates contained in the 400×300 source frame maps into the 800×400
output frame. -/
theorem scaleRect_bounds (x y w h : ℤ)
    (hx : 0 ≤ x) (hy : 0 ≤ y) (hw : 0 ≤ w) (hh : 0 ≤ h)
    (hxw : x + w ≤ 400) (hyh : y + h ≤ 300) :
    scaleRect x y w h =
      (2 * x, ⌊(y : ℚ) * (400 / 300)⌋, 2 * w, ⌊(h : ℚ) * (400 / 300)⌋) ∧
    (scaleRect x y w h).1 + (scaleRect x y w h).2.2.1 ≤ 800 ∧
    (scaleRect x y w h).2.1 + (scaleRect x y w h).2.2.2 ≤ 400 := by
  have hsx : scale_x = 2 := by norm_num [scale_x]
  have ex1 : ⌊(x : ℚ) * scale_x⌋ = 2 * x := by
    rw [hsx, show (x : ℚ) * 2 = ((2 * x : ℤ) : ℚ) by push_cast; ring,
      Int.floor_intCast]
  have ew1 : ⌊(w : ℚ) * scale_x⌋ = 2 * w := by
    rw [hsx, show (w : ℚ) * 2 = ((2 * w : ℤ) : ℚ) by push_cast; ring,
      Int.floor_intCast]
  have hfloor : ∀ a b : ℚ, a + b ≤ 400 → ⌊a⌋ + ⌊b⌋ ≤ 400 := by
    intro a b hab
    have h1 : ((⌊a⌋ + ⌊b⌋ : ℤ) : ℚ) ≤ 400 := by
      push_cast
      calc (⌊a⌋ : ℚ) + (⌊b⌋ : ℚ) ≤ a + b :=
            add_le_add (Int.floor_le a) (Int.floor_le b)
        _ ≤ 400 := hab
    exact_mod_cast h1
  have hysum : (y : ℚ) * scale_y + (h : ℚ) * scale_y ≤ 400 := by
    have hcast : (y : ℚ) + (h : ℚ) ≤ 300 := by exact_mod_cast hyh
    rw [show scale_y = 4 / 3 by norm_num [scale_y]]
    nlinarith
  refine ⟨?_, ?_, ?_⟩
  · simp only [scaleRect, ex1, ew1, scale_y]
  · simp only [scaleRect, ex1, ew1]
    omega
  · simp only [scaleRect]
    exact hfloor _ _ hysum

/-- Witness for `scaleRect_bounds` at the rectangle (10, 20, 30, 40). -/
theorem scaleRect_bounds_witness :
    (scaleRect 10 20 30 40).1 + (scaleRect 10 20 30 40).2.2.1 ≤ 800 ∧
    (scaleRect 10 20 30 40).2.1 + (scaleRect 10 20 30 40).2.2.2 ≤ 400 ∧
    scaleRect 10 20 30 40 = (20, 26, 60, 53) := by
  have h := scaleRect_bounds 10 20 30 40 (by norm_num) (by norm_num)
    (by norm_num) (by norm_num) (by norm_num) (by norm_num)
  refine ⟨h.2.1, h.2.2, ?_⟩
  rw [h.1]
  have h20 : ⌊((20 : ℤ) : ℚ) * (400 / 300)⌋ = 26 := by
    rw [show ((20 : ℤ) : ℚ) * (400 / 300) = 80 / 3 by norm_num]
    rw [Int.floor_eq_iff]
    norm_num
  have h40 : ⌊((40 : ℤ) : ℚ) * (400 / 300)⌋ = 53 := by
    rw [show ((40 : ℤ) : ℚ) * (400 / 300) = 160 / 3 by norm_num]
    rw [Int.floor_eq_iff]
    norm_num
  rw [h20, h40]
  norm_num

end BioEntry
